import Mathlib

/-!
# ApplicationUI (networking_downloading/src/applicationui.cpp)

A shallow embedding of the `ApplicationUI` class of the networking sample.

* The member variables that the slots read and write are the fields of `State`.
* Calls into the platform (showing or cancelling a `SystemToast`, issuing a GET,
  installing a data model, requesting exit) are recorded, in program order, in
  `State.log`.
* Values the slots obtain from the platform while they run
  (`QNetworkConfigurationManager::isOnline()`, the bearer type name, whether
  `QFile::open` succeeds, the reply) are the fields of `Env`.
* A Qt signal connected to a slot of the same object is a direct call, so
  `emit updateListView()` is a call of `onUpdateListView`, and so on.
* The `finished` signal of a toast is delivered by the platform: it is an input
  event, dispatched to the slot that the code connected to that toast.
-/

namespace ApplicationUI

/-- Result codes of `bb::system::SystemUiResult::Type`. The slots only compare
against `ButtonSelection`. -/
inductive SystemUiResult where
  | None
  | ButtonSelection
  | ConfirmButtonSelection
  | CancelButtonSelection
  | TimeOut
  | Error
  deriving DecidableEq, Repr

/-- Values of `QNetworkReply::NetworkError` that `onRequestFinished` tells apart;
every other error code is `Other`. -/
inductive NetworkError where
  | NoError
  | ContentNotFoundError
  | HostNotFoundError
  | AuthenticationRequiredError
  | Other
  deriving DecidableEq, Repr

/-- Slots of `ApplicationUI` that the code connects to the `finished` signal of a
toast. -/
inductive Slot where
  | onToastFinished
  | onFileOpenMsgFinished
  | onExitMessageFinished
  deriving DecidableEq, Repr

/-- A `bb::system::SystemToast` as the code configures it: its body, the label of
its button (empty when the code sets none) and the slot connected to its
`finished` signal. -/
structure SystemToast where
  body : String
  buttonLabel : String
  finished : Option Slot
  deriving DecidableEq, Repr

abbrev QByteArray := List UInt8

/-- Calls into the platform, in the order the code makes them. -/
inductive Effect where
  /-- The call `SystemToast::show()`. -/
  | show (t : SystemToast)
  /-- The call `SystemProgressToast::show()` with the progress value set before it. -/
  | showProgress (body : String) (progress : Int)
  /-- The call `m_pCurrentToast->cancel()`, with the value of the pointer. -/
  | cancel (t : Option SystemToast)
  /-- The call `QNetworkAccessManager::get` for the given URL. -/
  | get (url : String)
  /-- The call `m_pFileObj->open(QIODevice::ReadWrite)` with its result. -/
  | fileOpen (ok : Bool)
  /-- The call `m_pFileObj->write` with the bytes written. -/
  | fileWrite (payload : QByteArray)
  /-- The call `ListView::setDataModel` with an `XmlDataModel` of the given source. -/
  | setDataModel (source : String)
  /-- The call `qDebug() << msg`. -/
  | qDebug (msg : String)
  /-- The call `m_pNetReply->deleteLater()`. -/
  | deleteLater
  /-- The call `Application::instance()->requestExit()`. -/
  | requestExit
  deriving DecidableEq, Repr

/-- What the platform answers while one slot runs. -/
structure Env where
  /-- Value of `m_pNetConfigMngr->isOnline()`. -/
  isOnline : Bool
  /-- Value of `m_pNetAccessMngr->activeConfiguration().bearerTypeName()`. -/
  bearerTypeName : String
  /-- Whether `m_pFileObj->open(QIODevice::ReadWrite)` succeeds. -/
  fileOpens : Bool
  /-- Value of `m_pNetReply->error()`. -/
  replyError : NetworkError
  /-- Value of `m_pNetReply->errorString()`. -/
  replyErrorString : String
  /-- Value of `m_pNetReply->readAll()`. -/
  replyBody : QByteArray
  /-- Value of `QDir::homePath()`. -/
  homePath : String
  deriving Repr

/-- Member variables of `ApplicationUI` together with the image sources of the two
icons, the content of the file behind `m_pFileObj`, and the log of platform calls.
The two retry counters are C++ `int`s that only ever count up by one from zero;
they are natural numbers here. -/
structure State where
  m_ConnectionRetries : Nat
  m_FileOpenRetries : Nat
  m_RetryToastIsDisplayed : Bool
  /-- The pointer `m_pCurrentToast`; `none` is `NULL`. -/
  m_pCurrentToast : Option SystemToast
  m_CurrentInterface : String
  /-- Image source of `m_pNetwrkConnIcon`. -/
  m_pNetwrkConnIcon : String
  /-- Image source of `m_pNetwrkIntrfcSymb`. -/
  m_pNetwrkIntrfcSymb : String
  /-- Content of `data/model.xml`, the file behind `m_pFileObj`
  (empty when the file does not exist yet). -/
  file : QByteArray
  log : List Effect
  deriving Repr

/-- Append one platform call to the log. -/
def State.emit (s : State) (e : Effect) : State :=
  { s with log := s.log ++ [e] }

/-- The body of `refreshInterface`: the image source chosen for the interface
icon. `QString == "literal"` is exact, case-sensitive comparison. -/
def refreshInterface (interfaceTypeName : String) (s : State) : State :=
  if interfaceTypeName = "Ethernet" then
    { s with m_pNetwrkIntrfcSymb := "asset:///images/wired.png" }
  else if interfaceTypeName = "WLAN" ∨ interfaceTypeName = "WiMAX" then
    { s with m_pNetwrkIntrfcSymb := "asset:///images/wifi.png" }
  else if interfaceTypeName = "2G" ∨ interfaceTypeName = "CDMA2000" ∨
          interfaceTypeName = "WCDMA" ∨ interfaceTypeName = "HSPA" then
    { s with m_pNetwrkIntrfcSymb := "asset:///images/cellular.png" }
  else if interfaceTypeName = "Bluetooth" then
    { s with m_pNetwrkIntrfcSymb := "asset:///images/bluetooth.png" }
  else
    { s with m_pNetwrkIntrfcSymb := "asset:///images/unknown.png" }

/-- The URL requested by `onUpdateDataModel`. -/
def requestUrl : String :=
  ("https://developer.blackberry.com".append "/native/files/documentation").append
    "/cascades/images/model.xml"

/-- Slot `onUpdateDataModel`: create and send the network request. -/
def onUpdateDataModel (s : State) : State :=
  s.emit (.get requestUrl)

/-- Toast built by `onFileOpenFailed` for the given counter value. -/
def fileOpenMsg (retries : Nat) : SystemToast :=
  { body := "File failed to open"
    buttonLabel := "Retry " ++ toString retries ++ " of 3"
    finished := some .onFileOpenMsgFinished }

/-- Slot `onFileOpenFailed`. -/
def onFileOpenFailed (s : State) : State :=
  let s := { s with m_FileOpenRetries := s.m_FileOpenRetries + 1 }
  s.emit (.show (fileOpenMsg s.m_FileOpenRetries))

/-- The function `QFile::write` on a device just opened with `QIODevice::ReadWrite`
alone: the position is 0 and the open mode does not truncate, so the payload
replaces the leading bytes of the content and the bytes beyond it stay. -/
def QFile.write (content payload : QByteArray) : QByteArray :=
  payload ++ content.drop payload.length

/-- Slot `onUpdateListView`. -/
def onUpdateListView (env : Env) (s : State) : State :=
  let s := s.emit (.fileOpen env.fileOpens)
  if env.fileOpens then
    let s := s.emit (.fileWrite env.replyBody)
    let s := { s with file := QFile.write s.file env.replyBody }
    let fileUrl := "file://" ++ env.homePath ++ "/model.xml"
    s.emit (.setDataModel fileUrl)
  else
    onFileOpenFailed s

/-- Toast built by the give-up branch of `onFileOpenMsgFinished`. -/
def exitFileMsg : SystemToast :=
  { body := ("The app could not open the necessary file needed ".append
      "to update the list data, and will exit")
    buttonLabel := ""
    finished := some .onExitMessageFinished }

/-- Slot `onFileOpenMsgFinished`. -/
def onFileOpenMsgFinished (env : Env) (type : SystemUiResult) (s : State) : State :=
  if type = .ButtonSelection ∧ s.m_FileOpenRetries < 3 then
    onUpdateListView env s
  else
    let s := { s with m_FileOpenRetries := 0 }
    s.emit (.show exitFileMsg)

/-- Toast built by the retry branch of `onNetworkConnectionFailed`. -/
def retryMessage (retries : Nat) : SystemToast :=
  { body := "The connection has failed"
    buttonLabel := "Retry " ++ toString retries ++ " of 3"
    finished := some .onToastFinished }

/-- Toast built by the give-up branch of `onNetworkConnectionFailed`. -/
def exitMessage : SystemToast :=
  { body := "The app could not re-establish a connection, and will exit"
    buttonLabel := ""
    finished := some .onExitMessageFinished }

/-- Slot `onNetworkConnectionFailed`. -/
def onNetworkConnectionFailed (env : Env) (s : State) : State :=
  if env.isOnline ∧ s.m_RetryToastIsDisplayed then
    let s := { s with m_RetryToastIsDisplayed := false }
    s.emit (.cancel s.m_pCurrentToast)
  else if s.m_ConnectionRetries < 3 then
    let s := { s with m_pNetwrkConnIcon := "asset:///images/redDot.png" }
    let s := { s with m_ConnectionRetries := s.m_ConnectionRetries + 1 }
    let s := { s with m_pCurrentToast := some (retryMessage s.m_ConnectionRetries) }
    let s := s.emit (.show (retryMessage s.m_ConnectionRetries))
    { s with m_RetryToastIsDisplayed := true }
  else
    let s := s.emit (.show exitMessage)
    { s with m_RetryToastIsDisplayed := false }

/-- Slot `onOnlineStateChanged`. -/
def onOnlineStateChanged (env : Env) (isOnline : Bool) (s : State) : State :=
  let (connectionIconUrl, s) :=
    if isOnline then
      let s := if s.m_RetryToastIsDisplayed then s.emit (.cancel s.m_pCurrentToast) else s
      ("asset:///images/greenDot.png", onUpdateDataModel s)
    else
      ("asset:///images/redDot.png", onNetworkConnectionFailed env s)
  let s := { s with m_pNetwrkConnIcon := connectionIconUrl }
  let s := { s with m_CurrentInterface := env.bearerTypeName }
  refreshInterface s.m_CurrentInterface s

/-- Slot `onToastFinished`. -/
def onToastFinished (env : Env) (type : SystemUiResult) (s : State) : State :=
  let s := { s with m_CurrentInterface := env.bearerTypeName }
  let isOffline := s.m_CurrentInterface.isEmpty
  if env.isOnline ∨ isOffline = false then
    let s := { s with m_ConnectionRetries := 0 }
    onOnlineStateChanged env true s
  else if type = .ButtonSelection then
    onNetworkConnectionFailed env s
  else
    s

/-- Slot `onExitMessageFinished`. -/
def onExitMessageFinished (s : State) : State :=
  s.emit .requestExit

/-- Slot `onRequestFinished`. -/
def onRequestFinished (env : Env) (s : State) : State :=
  let s :=
    if env.replyError = .NoError then
      onUpdateListView env s
    else
      match env.replyError with
      | .ContentNotFoundError => s.emit (.qDebug "The content was not found on the server")
      | .HostNotFoundError => s.emit (.qDebug "The server was not found")
      | .AuthenticationRequiredError => s.emit (.qDebug "Server requires authentication")
      | _ => s.emit (.qDebug env.replyErrorString)
  s.emit .deleteLater

/-- The constructor: the member initialisations and the empty-interface check. The
content of `data/model.xml` left by earlier runs is an argument. -/
def ApplicationUI (env : Env) (disk : QByteArray) : State :=
  let s : State :=
    { m_ConnectionRetries := 0
      m_FileOpenRetries := 0
      m_RetryToastIsDisplayed := false
      m_pCurrentToast := none
      m_CurrentInterface := env.bearerTypeName
      m_pNetwrkConnIcon := ""
      m_pNetwrkIntrfcSymb := ""
      file := disk
      log := [] }
  if s.m_CurrentInterface.isEmpty then onNetworkConnectionFailed env s else s

/-- Delivery of the `finished` signal of toast `t`: a call of the slot that the code
connected to it. -/
def SystemToast.emitFinished (t : SystemToast) (env : Env) (type : SystemUiResult)
    (s : State) : State :=
  match t.finished with
  | some .onToastFinished => onToastFinished env type s
  | some .onFileOpenMsgFinished => onFileOpenMsgFinished env type s
  | some .onExitMessageFinished => onExitMessageFinished s
  | none => s

/-- The toast shown last in a log, if any. -/
def lastToast : List Effect → Option SystemToast
  | [] => none
  | e :: es =>
    match lastToast es with
    | some t => some t
    | none => match e with
      | .show t => some t
      | _ => none

/-- The user selects the button of the toast shown last, when that toast has a
button label; otherwise nothing happens. -/
def tapButton (env : Env) (s : State) : State :=
  match lastToast s.log with
  | some t => if t.buttonLabel = "" then s else t.emitFinished env .ButtonSelection s
  | none => s

/-- The user selects the button of the toast shown last, `n` times in a row. -/
def tapButtons (env : Env) : Nat → State → State
  | 0, s => s
  | n + 1, s => tapButtons env n (tapButton env s)

/-- The toasts shown in a log, in order. -/
def toastsShown : List Effect → List SystemToast
  | [] => []
  | .show t :: es => t :: toastsShown es
  | _ :: es => toastsShown es

/-- Events that the platform or the object itself delivers to the slots. -/
inductive Event where
  | onlineStateChanged (isOnline : Bool)
  | networkConnectionFailed
  | toastFinished (type : SystemUiResult)
  | requestFinished
  | updateListView
  | fileOpenFailed
  | fileOpenMsgFinished (type : SystemUiResult)
  | exitMessageFinished
  deriving DecidableEq, Repr

/-- Run the slot that handles an event. -/
def step (env : Env) (s : State) : Event → State
  | .onlineStateChanged isOnline => onOnlineStateChanged env isOnline s
  | .networkConnectionFailed => onNetworkConnectionFailed env s
  | .toastFinished type => onToastFinished env type s
  | .requestFinished => onRequestFinished env s
  | .updateListView => onUpdateListView env s
  | .fileOpenFailed => onFileOpenFailed s
  | .fileOpenMsgFinished type => onFileOpenMsgFinished env type s
  | .exitMessageFinished => onExitMessageFinished s

/-- Run a finite sequence of events, each with the answers of the platform at that
time. -/
def run (s : State) : List (Env × Event) → State
  | [] => s
  | (env, e) :: es => run (step env s e) es

/-- States reachable from the state the constructor leaves. -/
def Reachable (s : State) : Prop :=
  ∃ env disk es, s = run (ApplicationUI env disk) es

/-- The range of `qint64`. -/
def isQint64 (x : Int) : Prop := -2 ^ 63 ≤ x ∧ x < 2 ^ 63

/-- Two-complement wrap of an integer into the range of `qint64`. -/
def wrap64 (x : Int) : Int := (x + 2 ^ 63) % 2 ^ 64 - 2 ^ 63

/-- Two-complement wrap of an integer into the range of a 32-bit `int`. -/
def wrap32 (x : Int) : Int := (x + 2 ^ 31) % 2 ^ 32 - 2 ^ 31

/-- Division of two `qint64` values: truncating, and without a result when the
divisor is zero and when the quotient does not fit (`-2^63 / -1`). In every other
case the truncated quotient of two 64-bit values is a 64-bit value. -/
def qint64Div (a b : Int) : Option Int :=
  if b = 0 then none
  else if a = -2 ^ 63 ∧ b = -1 then none
  else some (Int.tdiv a b)

/-- The initialiser `int currentProgress = (bytesSent * 100) / bytesTotal`. -/
def currentProgress (bytesSent bytesTotal : Int) : Option Int :=
  (qint64Div (wrap64 (bytesSent * 100)) bytesTotal).map wrap32

/-- Platform answers while the device is online over WLAN, the file opens, and the
reply carries two bytes without error. -/
def onlineEnv : Env :=
  { isOnline := true
    bearerTypeName := "WLAN"
    fileOpens := true
    replyError := .NoError
    replyErrorString := ""
    replyBody := [120, 121]
    homePath := "/accounts/1000/appdata/app/data" }

/-- Platform answers while the device is offline, with no active bearer, and the
file does not open. -/
def offlineEnv : Env :=
  { onlineEnv with isOnline := false, bearerTypeName := "", fileOpens := false }

/-- Platform answers while the device is online and the file does not open. -/
def openFailsEnv : Env :=
  { onlineEnv with fileOpens := false }

/-- Four replies that finish without error while the file does not open, with no
toast finishing in between. -/
def fourFailedReplies : List (Env × Event) :=
  [(openFailsEnv, .requestFinished), (openFailsEnv, .requestFinished),
   (openFailsEnv, .requestFinished), (openFailsEnv, .requestFinished)]

/-- Two rounds of: the device goes offline and comes back, the reply to the request
finishes while the file does not open, the cancelled connection toast finishes, and
the reply to the second request finishes too. Only signals of the platform occur,
and no file-open toast finishes. -/
def twoOfflineRounds : List (Env × Event) :=
  [(offlineEnv, .onlineStateChanged false), (openFailsEnv, .onlineStateChanged true),
   (openFailsEnv, .requestFinished), (openFailsEnv, .toastFinished .TimeOut),
   (openFailsEnv, .requestFinished),
   (offlineEnv, .onlineStateChanged false), (openFailsEnv, .onlineStateChanged true),
   (openFailsEnv, .requestFinished), (openFailsEnv, .toastFinished .TimeOut),
   (openFailsEnv, .requestFinished)]

/-! ## Lemmas about logs and toasts -/

theorem lastToast_append (l m : List Effect) :
    lastToast (l ++ m) = match lastToast m with
      | some t => some t
      | none => lastToast l := by
  induction l with
  | nil => cases h : lastToast m <;> simp [lastToast, h]
  | cons a l ih =>
    cases h : lastToast m <;> simp [lastToast, ih, h]

theorem toastsShown_append (l m : List Effect) :
    toastsShown (l ++ m) = toastsShown l ++ toastsShown m := by
  induction l with
  | nil => simp [toastsShown]
  | cons a l ih => cases a <;> simp [toastsShown, ih]

theorem fileOpenMsg_buttonLabel_ne (n : Nat) : (fileOpenMsg n).buttonLabel ≠ "" := by
  intro h
  have := congrArg String.length h
  simp [fileOpenMsg, String.length_append] at this
  exact absurd this.1.1 (by decide)

theorem retryMessage_buttonLabel_ne (n : Nat) : (retryMessage n).buttonLabel ≠ "" := by
  intro h
  have := congrArg String.length h
  simp [retryMessage, String.length_append] at this
  exact absurd this.1.1 (by decide)

theorem fileOpenMsg_finished (n : Nat) :
    (fileOpenMsg n).finished = some .onFileOpenMsgFinished := rfl

theorem retryMessage_finished (n : Nat) :
    (retryMessage n).finished = some .onToastFinished := rfl

theorem exitFileMsg_buttonLabel : exitFileMsg.buttonLabel = "" := rfl

theorem exitMessage_buttonLabel : exitMessage.buttonLabel = "" := rfl

theorem isEmpty_empty : ("" : String).isEmpty = true := by decide

theorem tapButtons_fixed (env : Env) (s : State) (h : tapButton env s = s) (n : Nat) :
    tapButtons env n s = s := by
  induction n with
  | zero => rfl
  | succ n ih => simp [tapButtons, h, ih]

/-! ## The interface icon -/

theorem refreshInterface_icon (name : String) (s : State) :
    (refreshInterface name s).m_pNetwrkIntrfcSymb =
      if name = "Ethernet" then "asset:///images/wired.png"
      else if name = "WLAN" ∨ name = "WiMAX" then "asset:///images/wifi.png"
      else if name = "2G" ∨ name = "CDMA2000" ∨ name = "WCDMA" ∨ name = "HSPA" then
        "asset:///images/cellular.png"
      else if name = "Bluetooth" then "asset:///images/bluetooth.png"
      else "asset:///images/unknown.png" := by
  unfold refreshInterface
  split_ifs <;> rfl

theorem refreshInterface_connectionRetries (name : String) (s : State) :
    (refreshInterface name s).m_ConnectionRetries = s.m_ConnectionRetries := by
  unfold refreshInterface
  split_ifs <;> rfl

theorem refreshInterface_log (name : String) (s : State) :
    (refreshInterface name s).log = s.log := by
  unfold refreshInterface
  split_ifs <;> rfl

theorem refreshInterface_displayed (name : String) (s : State) :
    (refreshInterface name s).m_RetryToastIsDisplayed = s.m_RetryToastIsDisplayed := by
  unfold refreshInterface
  split_ifs <;> rfl

theorem refreshInterface_currentToast (name : String) (s : State) :
    (refreshInterface name s).m_pCurrentToast = s.m_pCurrentToast := by
  unfold refreshInterface
  split_ifs <;> rfl

/-- C6: `refreshInterface` selects the wired icon exactly for "Ethernet", the wifi
icon exactly for "WLAN" and "WiMAX", the cellular icon exactly for "2G",
"CDMA2000", "WCDMA" and "HSPA", the bluetooth icon exactly for "Bluetooth", and
the unknown icon exactly for every other string; the comparison is exact, so
"wlan" and "LTE" get the unknown icon; and exactly one of the five icons is
selected for each input. -/
theorem refreshInterface_classification (name : String) (s : State) :
    ((refreshInterface name s).m_pNetwrkIntrfcSymb = "asset:///images/wired.png" ↔
        name = "Ethernet") ∧
    ((refreshInterface name s).m_pNetwrkIntrfcSymb = "asset:///images/wifi.png" ↔
        name = "WLAN" ∨ name = "WiMAX") ∧
    ((refreshInterface name s).m_pNetwrkIntrfcSymb = "asset:///images/cellular.png" ↔
        name = "2G" ∨ name = "CDMA2000" ∨ name = "WCDMA" ∨ name = "HSPA") ∧
    ((refreshInterface name s).m_pNetwrkIntrfcSymb = "asset:///images/bluetooth.png" ↔
        name = "Bluetooth") ∧
    ((refreshInterface name s).m_pNetwrkIntrfcSymb = "asset:///images/unknown.png" ↔
        ¬ (name = "Ethernet" ∨ name = "WLAN" ∨ name = "WiMAX" ∨ name = "2G" ∨
           name = "CDMA2000" ∨ name = "WCDMA" ∨ name = "HSPA" ∨ name = "Bluetooth")) ∧
    (refreshInterface "wlan" s).m_pNetwrkIntrfcSymb = "asset:///images/unknown.png" ∧
    (refreshInterface "LTE" s).m_pNetwrkIntrfcSymb = "asset:///images/unknown.png" ∧
    (∃! icon, icon ∈ ["asset:///images/wired.png", "asset:///images/wifi.png",
        "asset:///images/cellular.png", "asset:///images/bluetooth.png",
        "asset:///images/unknown.png"] ∧
      (refreshInterface name s).m_pNetwrkIntrfcSymb = icon) := by
  refine ⟨?_, ?_, ?_, ?_, ?_, ?_, ?_, ?_⟩
  · rw [refreshInterface_icon]
    split_ifs with h1 h2 h3 h4
    · subst h1; simp
    · rcases h2 with rfl | rfl <;> simp
    · rcases h3 with rfl | rfl | rfl | rfl <;> simp
    · subst h4; simp
    · simp_all
  · rw [refreshInterface_icon]
    split_ifs with h1 h2 h3 h4
    · subst h1; simp
    · rcases h2 with rfl | rfl <;> simp
    · rcases h3 with rfl | rfl | rfl | rfl <;> simp
    · subst h4; simp
    · simp_all
  · rw [refreshInterface_icon]
    split_ifs with h1 h2 h3 h4
    · subst h1; simp
    · rcases h2 with rfl | rfl <;> simp
    · rcases h3 with rfl | rfl | rfl | rfl <;> simp
    · subst h4; simp
    · simp_all
  · rw [refreshInterface_icon]
    split_ifs with h1 h2 h3 h4
    · subst h1; simp
    · rcases h2 with rfl | rfl <;> simp
    · rcases h3 with rfl | rfl | rfl | rfl <;> simp
    · subst h4; simp
    · simp_all
  · rw [refreshInterface_icon]
    split_ifs with h1 h2 h3 h4
    · subst h1; simp
    · rcases h2 with rfl | rfl <;> simp
    · rcases h3 with rfl | rfl | rfl | rfl <;> simp
    · subst h4; simp
    · simp_all
  · rw [refreshInterface_icon]; decide
  · rw [refreshInterface_icon]; decide
  · refine ⟨(refreshInterface name s).m_pNetwrkIntrfcSymb, ⟨?_, rfl⟩, ?_⟩
    · rw [refreshInterface_icon]
      split_ifs <;> simp
    · rintro icon ⟨_, h⟩
      exact h.symm

/-- C7 (counterexample): for the empty string `refreshInterface` selects the unknown
icon, the very icon it selects for the unrecognised name "LTE"; the empty string
has no tag of its own. -/
theorem refreshInterface_empty_not_distinct :
    (refreshInterface "" (ApplicationUI onlineEnv [])).m_pNetwrkIntrfcSymb =
      "asset:///images/unknown.png" ∧
    ¬ ((refreshInterface "" (ApplicationUI onlineEnv [])).m_pNetwrkIntrfcSymb ≠
      (refreshInterface "LTE" (ApplicationUI onlineEnv [])).m_pNetwrkIntrfcSymb) := by
  decide

/-- C7 (amended): for the empty string `refreshInterface` selects the unknown icon,
the same result as for the unrecognised name "LTE"; and an empty bearer name is
what the constructor treats as a failed connection: it then shows the first
connection retry toast. -/
theorem refreshInterface_empty_is_unknown (s : State) (env : Env) (disk : QByteArray) :
    (refreshInterface "" s).m_pNetwrkIntrfcSymb = "asset:///images/unknown.png" ∧
    refreshInterface "" s = refreshInterface "LTE" s ∧
    (ApplicationUI { env with bearerTypeName := "" } disk).log = [.show (retryMessage 1)] := by
  refine ⟨?_, ?_, ?_⟩
  · rw [refreshInterface_icon]; decide
  · have h1 : refreshInterface "" s =
        { s with m_pNetwrkIntrfcSymb := "asset:///images/unknown.png" } := by
      simp [refreshInterface]
    have h2 : refreshInterface "LTE" s =
        { s with m_pNetwrkIntrfcSymb := "asset:///images/unknown.png" } := by
      simp [refreshInterface]
    rw [h1, h2]
  · simp [ApplicationUI, onNetworkConnectionFailed, State.emit, isEmpty_empty]

/-! ## Download progress -/

theorem wrap64_id (x : Int) (h1 : -2 ^ 63 ≤ x) (h2 : x < 2 ^ 63) : wrap64 x = x := by
  unfold wrap64; omega

theorem wrap32_id (x : Int) (h1 : -2 ^ 31 ≤ x) (h2 : x < 2 ^ 31) : wrap32 x = x := by
  unfold wrap32; omega

/-- C10 (counterexample): with `bytesSent = bytesTotal = 10^17`, both 64-bit values
with `0 < bytesSent <= bytesTotal`, the product `bytesSent * 100` wraps and
`currentProgress` is -84, which is below 0 and is not the floor 100. -/
theorem currentProgress_wraps :
    isQint64 (10 ^ 17) ∧ (0 : Int) < 10 ^ 17 ∧
    currentProgress (10 ^ 17) (10 ^ 17) = some (-84) ∧
    ¬ ((0 : Int) ≤ -84) ∧ (100 * 10 ^ 17 / 10 ^ 17 : Int) = 100 := by
  unfold isQint64
  decide

/-- C10 (amended): for 64-bit `bytesSent` and `bytesTotal` with
`0 < bytesSent <= bytesTotal` and `bytesSent * 100` within the 64-bit range,
`currentProgress` is the floor of `100 * bytesSent / bytesTotal` and lies between 0
and 100. -/
theorem currentProgress_in_range (bytesSent bytesTotal : Int) (h0 : 0 < bytesSent)
    (hle : bytesSent ≤ bytesTotal) (hb : bytesTotal < 2 ^ 63)
    (hno : bytesSent * 100 < 2 ^ 63) :
    currentProgress bytesSent bytesTotal = some (100 * bytesSent / bytesTotal) ∧
    0 ≤ 100 * bytesSent / bytesTotal ∧ 100 * bytesSent / bytesTotal ≤ 100 := by
  have hbpos : 0 < bytesTotal := lt_of_lt_of_le h0 hle
  rw [mul_comm 100 bytesSent]
  have hq0 : 0 ≤ bytesSent * 100 / bytesTotal := Int.ediv_nonneg (by omega) (by omega)
  have hq1 : bytesSent * 100 / bytesTotal ≤ 100 := by
    have : bytesSent * 100 / bytesTotal ≤ bytesTotal * 100 / bytesTotal :=
      Int.ediv_le_ediv hbpos (by nlinarith)
    rwa [Int.mul_ediv_cancel_left 100 (ne_of_gt hbpos)] at this
  refine ⟨?_, hq0, hq1⟩
  unfold currentProgress qint64Div
  rw [wrap64_id (bytesSent * 100) (by omega) hno, if_neg (ne_of_gt hbpos),
    if_neg (fun h => by omega), Int.tdiv_eq_ediv (by omega) (by omega)]
  simp only [Option.map_some']
  rw [wrap32_id _ (by omega) (by omega)]

/-- C10 (witness): the amended statement at `bytesSent = 50`, `bytesTotal = 100`. -/
theorem currentProgress_in_range_witness :
    ((0 : Int) < 50 ∧ (50 : Int) ≤ 100 ∧ (100 : Int) < 2 ^ 63 ∧ (50 : Int) * 100 < 2 ^ 63) ∧
    (currentProgress 50 100 = some (100 * 50 / 100) ∧
      (0 : Int) ≤ 100 * 50 / 100 ∧ (100 * 50 / 100 : Int) ≤ 100) :=
  ⟨by decide, currentProgress_in_range 50 100 (by decide) (by decide) (by decide) (by decide)⟩

/-! ## Writing the file -/

theorem onUpdateListView_file (env : Env) (s : State) (h : env.fileOpens = true) :
    (onUpdateListView env s).file = env.replyBody ++ s.file.drop env.replyBody.length := by
  simp [onUpdateListView, State.emit, QFile.write, h]

theorem onUpdateListView_file_of_short (env : Env) (s : State) (h : env.fileOpens = true)
    (hlen : s.file.length ≤ env.replyBody.length) :
    (onUpdateListView env s).file = env.replyBody := by
  rw [onUpdateListView_file env s h, List.drop_of_length_le hlen, List.append_nil]

theorem onUpdateListView_file_twice (env : Env) (s : State) (h : env.fileOpens = true) :
    (onUpdateListView env (onUpdateListView env s)).file = (onUpdateListView env s).file := by
  rw [onUpdateListView_file env _ h, onUpdateListView_file env s h]
  simp

/-- C8 (the code at the failing input): the file holds the six bytes `abcdef`, the
reply body is the two bytes `xy` and the open succeeds; after `onUpdateListView`
the file holds `xycdef`, the payload followed by four bytes of the previous
content, and not the payload alone. -/
theorem onUpdateListView_keeps_previous_tail :
    onlineEnv.fileOpens = true ∧ onlineEnv.replyBody = [120, 121] ∧
    (ApplicationUI onlineEnv [97, 98, 99, 100, 101, 102]).file =
      [97, 98, 99, 100, 101, 102] ∧
    (onUpdateListView onlineEnv (ApplicationUI onlineEnv [97, 98, 99, 100, 101, 102])).file =
      [120, 121, 99, 100, 101, 102] ∧
    (onUpdateListView onlineEnv (ApplicationUI onlineEnv [97, 98, 99, 100, 101, 102])).file ≠
      onlineEnv.replyBody := by
  decide

/-! ## The file-open retries -/

/-- C2: starting with `m_FileOpenRetries = 0`, when the open fails on every attempt
and the user selects the button of every retry toast, the code shows the retry
toasts "Retry 1 of 3", "Retry 2 of 3", "Retry 3 of 3" with body "File failed to
open", each after one failed open, and then the final toast without a further open
or write, however often the user taps afterwards; `m_FileOpenRetries` is 0 again;
and when the final toast finishes, with any result, the exit is requested. -/
theorem fileOpen_exhaustion (env : Env) (s : State) (n : Nat) (type : SystemUiResult)
    (h0 : s.m_FileOpenRetries = 0) (hf : env.fileOpens = false) :
    tapButtons env (3 + n) (onUpdateListView env s) =
      { s with
        m_FileOpenRetries := 0
        log := s.log ++ [.fileOpen false, .show (fileOpenMsg 1), .fileOpen false,
          .show (fileOpenMsg 2), .fileOpen false, .show (fileOpenMsg 3), .show exitFileMsg] } ∧
    fileOpenMsg 1 = ⟨"File failed to open", "Retry 1 of 3", some .onFileOpenMsgFinished⟩ ∧
    fileOpenMsg 2 = ⟨"File failed to open", "Retry 2 of 3", some .onFileOpenMsgFinished⟩ ∧
    fileOpenMsg 3 = ⟨"File failed to open", "Retry 3 of 3", some .onFileOpenMsgFinished⟩ ∧
    exitFileMsg.emitFinished env type (tapButtons env (3 + n) (onUpdateListView env s)) =
      { s with
        m_FileOpenRetries := 0
        log := s.log ++ [.fileOpen false, .show (fileOpenMsg 1), .fileOpen false,
          .show (fileOpenMsg 2), .fileOpen false, .show (fileOpenMsg 3), .show exitFileMsg,
          .requestExit] } := by
  have e : tapButtons env (3 + n) (onUpdateListView env s) =
      { s with
        m_FileOpenRetries := 0
        log := s.log ++ [.fileOpen false, .show (fileOpenMsg 1), .fileOpen false,
          .show (fileOpenMsg 2), .fileOpen false, .show (fileOpenMsg 3), .show exitFileMsg] } := by
    rw [show 3 + n = n + 1 + 1 + 1 by omega]
    simp only [tapButtons]
    have e3 : tapButton env (tapButton env (tapButton env (onUpdateListView env s))) =
        { s with
          m_FileOpenRetries := 0
          log := s.log ++ [.fileOpen false, .show (fileOpenMsg 1), .fileOpen false,
            .show (fileOpenMsg 2), .fileOpen false, .show (fileOpenMsg 3),
            .show exitFileMsg] } := by
      simp [tapButton, lastToast_append, lastToast, onUpdateListView, onFileOpenFailed,
        onFileOpenMsgFinished, State.emit, SystemToast.emitFinished, hf, h0,
        fileOpenMsg_buttonLabel_ne, fileOpenMsg_finished]
    rw [e3]
    apply tapButtons_fixed
    simp [tapButton, lastToast_append, lastToast, exitFileMsg_buttonLabel]
  refine ⟨e, by decide, by decide, by decide, ?_⟩
  rw [e]
  simp [SystemToast.emitFinished, exitFileMsg, onExitMessageFinished, State.emit]

/-- C2 (witness): the scenario from the state the constructor leaves while online. -/
theorem fileOpen_exhaustion_witness :
    ((ApplicationUI onlineEnv []).m_FileOpenRetries = 0 ∧ offlineEnv.fileOpens = false) ∧
    toastsShown (tapButtons offlineEnv (3 + 2)
      (onUpdateListView offlineEnv (ApplicationUI onlineEnv []))).log =
      [fileOpenMsg 1, fileOpenMsg 2, fileOpenMsg 3, exitFileMsg] ∧
    (exitFileMsg.emitFinished offlineEnv .TimeOut (tapButtons offlineEnv (3 + 2)
      (onUpdateListView offlineEnv (ApplicationUI onlineEnv [])))).log.getLast? =
      some .requestExit := by
  have h := fileOpen_exhaustion offlineEnv (ApplicationUI onlineEnv []) 2 .TimeOut rfl rfl
  refine ⟨⟨rfl, rfl⟩, ?_, ?_⟩
  · rw [h.1]; decide
  · rw [h.2.2.2.2]; decide

/-! ## The connection retries -/

/-- C4 (counterexample): from the state the constructor leaves while online
(`m_ConnectionRetries = 0`), the third consecutive invocation of
`onNetworkConnectionFailed` while offline shows the retry toast "Retry 3 of 3" and
not the final toast; the same holds when the second and third invocation come from
button selections on the retry toasts. -/
theorem third_connection_failure_retries :
    (ApplicationUI onlineEnv []).m_ConnectionRetries = 0 ∧
    (onNetworkConnectionFailed offlineEnv (onNetworkConnectionFailed offlineEnv
      (onNetworkConnectionFailed offlineEnv (ApplicationUI onlineEnv [])))).log =
      [.show (retryMessage 1), .show (retryMessage 2), .show (retryMessage 3)] ∧
    (tapButtons offlineEnv 2
      (onNetworkConnectionFailed offlineEnv (ApplicationUI onlineEnv []))).log =
      [.show (retryMessage 1), .show (retryMessage 2), .show (retryMessage 3)] ∧
    (retryMessage 3).buttonLabel = "Retry 3 of 3" ∧
    exitMessage ∉ [retryMessage 1, retryMessage 2, retryMessage 3] := by
  decide

/-- C4 (amended): starting with `m_ConnectionRetries = 0` and staying offline, with
every retry toast answered by button selection, the first three invocations of
`onNetworkConnectionFailed` show the retry toasts "Retry 1 of 3", "Retry 2 of 3"
and "Retry 3 of 3", and the fourth invocation is the one that shows the final
toast; further taps change nothing. -/
theorem connection_giveup_on_fourth_failure (env : Env) (s : State) (n : Nat)
    (hoff : env.isOnline = false) (hb : env.bearerTypeName = "")
    (h0 : s.m_ConnectionRetries = 0) :
    (onNetworkConnectionFailed env s).log = s.log ++ [.show (retryMessage 1)] ∧
    (tapButtons env 1 (onNetworkConnectionFailed env s)).log =
      s.log ++ [.show (retryMessage 1), .show (retryMessage 2)] ∧
    (tapButtons env 2 (onNetworkConnectionFailed env s)).log =
      s.log ++ [.show (retryMessage 1), .show (retryMessage 2), .show (retryMessage 3)] ∧
    (tapButtons env (3 + n) (onNetworkConnectionFailed env s)).log =
      s.log ++ [.show (retryMessage 1), .show (retryMessage 2), .show (retryMessage 3),
        .show exitMessage] ∧
    (tapButtons env 2 (onNetworkConnectionFailed env s)).log =
      (onNetworkConnectionFailed env (onNetworkConnectionFailed env
        (onNetworkConnectionFailed env s))).log ∧
    (tapButtons env 3 (onNetworkConnectionFailed env s)).log =
      (onNetworkConnectionFailed env (onNetworkConnectionFailed env
        (onNetworkConnectionFailed env (onNetworkConnectionFailed env s)))).log ∧
    (retryMessage 1).buttonLabel = "Retry 1 of 3" ∧
    (retryMessage 2).buttonLabel = "Retry 2 of 3" ∧
    (retryMessage 3).buttonLabel = "Retry 3 of 3" ∧
    exitMessage.body = "The app could not re-establish a connection, and will exit" := by
  have e3 : tapButton env (tapButton env (tapButton env (onNetworkConnectionFailed env s))) =
      { s with
        m_ConnectionRetries := 3
        m_RetryToastIsDisplayed := false
        m_pCurrentToast := some (retryMessage 3)
        m_CurrentInterface := ""
        m_pNetwrkConnIcon := "asset:///images/redDot.png"
        log := s.log ++ [.show (retryMessage 1), .show (retryMessage 2),
          .show (retryMessage 3), .show exitMessage] } := by
    simp [tapButton, lastToast_append, lastToast, onNetworkConnectionFailed, onToastFinished,
      State.emit, SystemToast.emitFinished, hoff, hb, h0, isEmpty_empty,
      retryMessage_buttonLabel_ne, retryMessage_finished]
  refine ⟨?_, ?_, ?_, ?_, ?_, ?_, by decide, by decide, by decide, rfl⟩
  · simp [onNetworkConnectionFailed, State.emit, hoff, h0]
  · simp [tapButtons, tapButton, lastToast_append, lastToast, onNetworkConnectionFailed,
      onToastFinished, State.emit, SystemToast.emitFinished, hoff, hb, h0, isEmpty_empty,
      retryMessage_buttonLabel_ne, retryMessage_finished]
  · simp [tapButtons, tapButton, lastToast_append, lastToast, onNetworkConnectionFailed,
      onToastFinished, State.emit, SystemToast.emitFinished, hoff, hb, h0, isEmpty_empty,
      retryMessage_buttonLabel_ne, retryMessage_finished]
  · rw [show 3 + n = n + 1 + 1 + 1 by omega]
    simp only [tapButtons]
    rw [e3, tapButtons_fixed]
    simp [tapButton, lastToast_append, lastToast, exitMessage_buttonLabel]
  · simp [tapButtons, tapButton, lastToast_append, lastToast, onNetworkConnectionFailed,
      onToastFinished, State.emit, SystemToast.emitFinished, hoff, hb, h0, isEmpty_empty,
      retryMessage_buttonLabel_ne, retryMessage_finished]
  · simp only [tapButtons]
    rw [e3]
    simp [onNetworkConnectionFailed, State.emit, hoff, h0]

/-- C4 (witness): the amended statement from the state the constructor leaves while
online, with the offline answers of the platform. -/
theorem connection_giveup_on_fourth_failure_witness :
    (offlineEnv.isOnline = false ∧ offlineEnv.bearerTypeName = "" ∧
      (ApplicationUI onlineEnv []).m_ConnectionRetries = 0) ∧
    (tapButtons offlineEnv (3 + 0)
      (onNetworkConnectionFailed offlineEnv (ApplicationUI onlineEnv []))).log =
      (ApplicationUI onlineEnv []).log ++ [.show (retryMessage 1), .show (retryMessage 2),
        .show (retryMessage 3), .show exitMessage] :=
  ⟨⟨rfl, rfl, rfl⟩,
    (connection_giveup_on_fourth_failure offlineEnv (ApplicationUI onlineEnv []) 0
      rfl rfl rfl).2.2.2.1⟩

/-! ## Dismissal of a retry toast -/

/-- C5 (counterexample): in the state the constructor leaves while offline, the
first connection retry toast is displayed; when that toast finishes with the
result `TimeOut` while the device is still offline, nothing is shown: the log still
holds that one retry toast only, so no final toast and no exit. -/
theorem connection_dismissal_shows_nothing :
    (ApplicationUI offlineEnv []).m_RetryToastIsDisplayed = true ∧
    lastToast (ApplicationUI offlineEnv []).log = some (retryMessage 1) ∧
    ((retryMessage 1).emitFinished offlineEnv .TimeOut (ApplicationUI offlineEnv [])).log =
      [.show (retryMessage 1)] ∧
    exitMessage ∉ toastsShown
      ((retryMessage 1).emitFinished offlineEnv .TimeOut (ApplicationUI offlineEnv [])).log := by
  decide

/-- C5 (amended): when a file-open retry toast finishes with a result other than
button selection, in any state and whatever the platform answers,
`onFileOpenMsgFinished` gives up: it resets `m_FileOpenRetries`, shows the final
toast and opens no file, and the completion of that final toast requests the exit.
When a connection retry toast finishes with such a result while the device is
still offline, `onToastFinished` shows nothing and retries nothing: it only stores
the empty interface name. -/
theorem dismissal_outcomes (env envc : Env) (s sc : State) (type type' : SystemUiResult)
    (ht : type ≠ .ButtonSelection) (hoff : envc.isOnline = false)
    (hb : envc.bearerTypeName = "") :
    onFileOpenMsgFinished env type s =
      { s with m_FileOpenRetries := 0, log := s.log ++ [.show exitFileMsg] } ∧
    exitFileMsg.emitFinished env type' (onFileOpenMsgFinished env type s) =
      { s with m_FileOpenRetries := 0, log := s.log ++ [.show exitFileMsg, .requestExit] } ∧
    onToastFinished envc type sc = { sc with m_CurrentInterface := "" } := by
  have e : onFileOpenMsgFinished env type s =
      { s with m_FileOpenRetries := 0, log := s.log ++ [.show exitFileMsg] } := by
    simp [onFileOpenMsgFinished, State.emit, ht]
  refine ⟨e, ?_, ?_⟩
  · rw [e]
    simp [SystemToast.emitFinished, exitFileMsg, onExitMessageFinished, State.emit]
  · simp [onToastFinished, hoff, hb, ht, isEmpty_empty]

/-- C5 (witness): the amended statement at the result `TimeOut`: for the file-open
scope in the state after a failed open while online, with the online answers of the
platform; for the connection scope in the state the constructor leaves while
offline, with the offline answers. -/
theorem dismissal_outcomes_witness :
    (SystemUiResult.TimeOut ≠ .ButtonSelection ∧ offlineEnv.isOnline = false ∧
      offlineEnv.bearerTypeName = "") ∧
    (onFileOpenMsgFinished openFailsEnv .TimeOut
        (onUpdateListView openFailsEnv (ApplicationUI onlineEnv [])) =
      { onUpdateListView openFailsEnv (ApplicationUI onlineEnv []) with
        m_FileOpenRetries := 0
        log := (onUpdateListView openFailsEnv (ApplicationUI onlineEnv [])).log ++
          [.show exitFileMsg] } ∧
    exitFileMsg.emitFinished openFailsEnv .None
        (onFileOpenMsgFinished openFailsEnv .TimeOut
          (onUpdateListView openFailsEnv (ApplicationUI onlineEnv []))) =
      { onUpdateListView openFailsEnv (ApplicationUI onlineEnv []) with
        m_FileOpenRetries := 0
        log := (onUpdateListView openFailsEnv (ApplicationUI onlineEnv [])).log ++
          [.show exitFileMsg, .requestExit] } ∧
    onToastFinished offlineEnv .TimeOut (ApplicationUI offlineEnv []) =
      { ApplicationUI offlineEnv [] with m_CurrentInterface := "" }) :=
  ⟨⟨by decide, rfl, rfl⟩,
    dismissal_outcomes openFailsEnv offlineEnv
      (onUpdateListView openFailsEnv (ApplicationUI onlineEnv [])) (ApplicationUI offlineEnv [])
      .TimeOut .None (by decide) rfl rfl⟩

/-! ## Recovery on an online transition -/

/-- C3 (counterexample): in the state the constructor leaves while offline the
connection retry toast is displayed and `m_ConnectionRetries = 1`; after
`onOnlineStateChanged(true)` with the configuration manager reporting online,
`m_ConnectionRetries` is still 1, not 0. -/
theorem online_transition_keeps_counter :
    (ApplicationUI offlineEnv []).m_RetryToastIsDisplayed = true ∧
    (ApplicationUI offlineEnv []).m_ConnectionRetries = 1 ∧
    onlineEnv.isOnline = true ∧
    (onOnlineStateChanged onlineEnv true (ApplicationUI offlineEnv [])).m_ConnectionRetries = 1 ∧
    (onOnlineStateChanged onlineEnv true (ApplicationUI offlineEnv [])).m_ConnectionRetries ≠ 0 := by
  decide

/-- C3 (amended): in every state in which a connection retry toast is displayed,
`onOnlineStateChanged(true)` cancels that toast and issues the catalog request,
without waiting for the user and without showing any toast, and leaves
`m_ConnectionRetries` as it was; the counter becomes 0 when the `finished` signal
of the toast is then handled by `onToastFinished` with the configuration manager
reporting online, which shows no toast either and issues the request once more. -/
theorem online_transition_recovery (env : Env) (s : State) (type : SystemUiResult)
    (hon : env.isOnline = true) (hd : s.m_RetryToastIsDisplayed = true) :
    (onOnlineStateChanged env true s).log =
      s.log ++ [.cancel s.m_pCurrentToast, .get requestUrl] ∧
    (onOnlineStateChanged env true s).m_ConnectionRetries = s.m_ConnectionRetries ∧
    (onToastFinished env type (onOnlineStateChanged env true s)).m_ConnectionRetries = 0 ∧
    (onToastFinished env type (onOnlineStateChanged env true s)).log =
      s.log ++ [.cancel s.m_pCurrentToast, .get requestUrl,
        .cancel s.m_pCurrentToast, .get requestUrl] := by
  have e : onOnlineStateChanged env true s =
      refreshInterface env.bearerTypeName
        { s with
          m_pNetwrkConnIcon := "asset:///images/greenDot.png"
          m_CurrentInterface := env.bearerTypeName
          log := s.log ++ [.cancel s.m_pCurrentToast, .get requestUrl] } := by
    simp [onOnlineStateChanged, onUpdateDataModel, State.emit, hd]
  refine ⟨?_, ?_, ?_, ?_⟩
  · rw [e, refreshInterface_log]
  · rw [e, refreshInterface_connectionRetries]
  · have ht : ∀ s' : State, (onOnlineStateChanged env true s').m_ConnectionRetries =
        s'.m_ConnectionRetries := by
      intro s'
      by_cases hd' : s'.m_RetryToastIsDisplayed = true <;>
        simp [onOnlineStateChanged, refreshInterface_connectionRetries, onUpdateDataModel,
          State.emit, hd']
    simp only [onToastFinished, hon, true_or, if_true]
    rw [ht]
  · rw [e]
    simp [onToastFinished, hon, onOnlineStateChanged, onUpdateDataModel, State.emit,
      refreshInterface_log, refreshInterface_displayed, refreshInterface_currentToast, hd]

/-- C3 (witness): the amended statement in the state the constructor leaves while
offline, with the online answers of the platform. -/
theorem online_transition_recovery_witness :
    (onlineEnv.isOnline = true ∧ (ApplicationUI offlineEnv []).m_RetryToastIsDisplayed = true) ∧
    (onOnlineStateChanged onlineEnv true (ApplicationUI offlineEnv [])).log =
      (ApplicationUI offlineEnv []).log ++
        [.cancel (ApplicationUI offlineEnv []).m_pCurrentToast, .get requestUrl] ∧
    (onToastFinished onlineEnv .TimeOut
      (onOnlineStateChanged onlineEnv true (ApplicationUI offlineEnv []))).m_ConnectionRetries =
      0 :=
  ⟨⟨rfl, rfl⟩,
    (online_transition_recovery onlineEnv (ApplicationUI offlineEnv []) .TimeOut rfl rfl).1,
    (online_transition_recovery onlineEnv (ApplicationUI offlineEnv []) .TimeOut rfl rfl).2.2.1⟩

/-! ## The retry counters over all event sequences -/

theorem onNetworkConnectionFailed_connectionRetries_le (env : Env) (s : State)
    (h : s.m_ConnectionRetries ≤ 3) : (onNetworkConnectionFailed env s).m_ConnectionRetries ≤ 3 := by
  unfold onNetworkConnectionFailed
  split_ifs <;> simp [State.emit] <;> omega

theorem onUpdateListView_connectionRetries (env : Env) (s : State) :
    (onUpdateListView env s).m_ConnectionRetries = s.m_ConnectionRetries := by
  unfold onUpdateListView
  split_ifs <;> simp [State.emit, onFileOpenFailed]

theorem onOnlineStateChanged_connectionRetries_le (env : Env) (isOnline : Bool) (s : State)
    (h : s.m_ConnectionRetries ≤ 3) :
    (onOnlineStateChanged env isOnline s).m_ConnectionRetries ≤ 3 := by
  cases isOnline
  · have := onNetworkConnectionFailed_connectionRetries_le env s h
    simpa [onOnlineStateChanged, refreshInterface_connectionRetries] using this
  · by_cases hd : s.m_RetryToastIsDisplayed = true <;>
      simpa [onOnlineStateChanged, refreshInterface_connectionRetries, onUpdateDataModel,
        State.emit, hd] using h

theorem step_connectionRetries_le (env : Env) (s : State) (e : Event)
    (h : s.m_ConnectionRetries ≤ 3) : (step env s e).m_ConnectionRetries ≤ 3 := by
  cases e with
  | onlineStateChanged isOnline => exact onOnlineStateChanged_connectionRetries_le env isOnline s h
  | networkConnectionFailed => exact onNetworkConnectionFailed_connectionRetries_le env s h
  | toastFinished type =>
    simp only [step, onToastFinished]
    split_ifs
    · exact onOnlineStateChanged_connectionRetries_le env true _ (by simp)
    · exact onNetworkConnectionFailed_connectionRetries_le env _ h
    · exact h
  | requestFinished =>
    simp only [step, onRequestFinished]
    split_ifs
    · simpa [State.emit, onUpdateListView_connectionRetries] using h
    · split <;> simpa [State.emit] using h
  | updateListView => simpa [step, onUpdateListView_connectionRetries] using h
  | fileOpenFailed => simpa [step, onFileOpenFailed, State.emit] using h
  | fileOpenMsgFinished type =>
    simp only [step, onFileOpenMsgFinished]
    split_ifs
    · simpa [onUpdateListView_connectionRetries] using h
    · simpa [State.emit] using h
  | exitMessageFinished => simpa [step, onExitMessageFinished, State.emit] using h

theorem run_connectionRetries_le (es : List (Env × Event)) (s : State)
    (h : s.m_ConnectionRetries ≤ 3) : (run s es).m_ConnectionRetries ≤ 3 := by
  induction es generalizing s with
  | nil => exact h
  | cons a es ih =>
    obtain ⟨env, e⟩ := a
    exact ih _ (step_connectionRetries_le env s e h)

/-- The connection counter never exceeds 3 in a reachable state. -/
theorem connectionRetries_le_three (s : State) (h : Reachable s) :
    s.m_ConnectionRetries ≤ 3 := by
  obtain ⟨env, disk, es, rfl⟩ := h
  apply run_connectionRetries_le
  by_cases hE : env.bearerTypeName.isEmpty = true
  · have e : ApplicationUI env disk = onNetworkConnectionFailed env
        { m_ConnectionRetries := 0
          m_FileOpenRetries := 0
          m_RetryToastIsDisplayed := false
          m_pCurrentToast := none
          m_CurrentInterface := env.bearerTypeName
          m_pNetwrkConnIcon := ""
          m_pNetwrkIntrfcSymb := ""
          file := disk
          log := [] } := by
      simp [ApplicationUI, hE]
    rw [e]
    exact onNetworkConnectionFailed_connectionRetries_le env _ (by simp)
  · simp [ApplicationUI, hE]

/-- C1 (the code at the failing input): after the constructor, four replies finish
without error while the file fails to open each time and no file-open toast has
finished yet. The state is reachable, `m_FileOpenRetries` is 4, and the toast shown
last carries the label "Retry 4 of 3". The same happens when the four replies
belong to requests issued over two rounds of going offline and back online. -/
theorem fileOpenRetries_exceeds_three :
    Reachable (run (ApplicationUI onlineEnv []) fourFailedReplies) ∧
    (run (ApplicationUI onlineEnv []) fourFailedReplies).m_FileOpenRetries = 4 ∧
    ¬ ((run (ApplicationUI onlineEnv []) fourFailedReplies).m_FileOpenRetries ≤ 3) ∧
    (lastToast (run (ApplicationUI onlineEnv []) fourFailedReplies).log).map
      SystemToast.buttonLabel = some "Retry 4 of 3" ∧
    Reachable (run (ApplicationUI onlineEnv []) twoOfflineRounds) ∧
    (run (ApplicationUI onlineEnv []) twoOfflineRounds).m_FileOpenRetries = 4 ∧
    (lastToast (run (ApplicationUI onlineEnv []) twoOfflineRounds).log).map
      SystemToast.buttonLabel = some "Retry 4 of 3" := by
  refine ⟨⟨onlineEnv, [], _, rfl⟩, ?_, ?_, ?_, ⟨onlineEnv, [], _, rfl⟩, ?_, ?_⟩ <;> decide

end ApplicationUI
